import Mathlib

/-!
Verification of the solar dashboard computation core.

The development shallowly embeds the computation core of the dashboard
application: location resolution with a geocoding fallback chain, timezone
resolution, the minute-resolution sunrise/sunset scan, the seasonal snapshot
aggregation, and the dashboard update callback.  Instants are modelled as
integer minute counts; a local wall-clock instant is a minute count in the
local civil calendar, a UTC instant is a minute count on the UTC clock.
External collaborators (the geocoding service, the timezone-boundary dataset,
the astronomical position routine, the system clock) are parameters of the
embedded functions.
-/

namespace Solar

/-- A civil timezone: pytz timezone objects are modelled by their offset
function, giving the minutes east of UTC as a function of the local
wall-clock instant being localized (this accounts for DST-dependent
offsets). -/
structure Timezone where
  utcOffset : ℤ → ℤ

/-- Conversion of a localized wall-clock instant to UTC, the model of
localize followed by astimezone to UTC. -/
def toUTC (tz : Timezone) (dt_local : ℤ) : ℤ :=
  dt_local - tz.utcOffset dt_local

/-- The UTC timezone, offset zero everywhere. -/
def utcTz : Timezone := ⟨fun _ => 0⟩

/-- Outcome of one geocoder round trip: a location with latitude, longitude
and address, no result, or a raised lookup exception (timeouts included). -/
inductive GeoResult where
  | found (lat lon : ℚ) (address : String)
  | notFound
  | raised (msg : String)
deriving DecidableEq

/-- One character of Python title-casing: an alphabetic character is
uppercased when the previous character was not alphabetic and lowercased
otherwise; other characters pass through. -/
def pyTitleChar (prevAlpha : Bool) (c : Char) : Char :=
  if c.isAlpha then (if prevAlpha then c.toLower else c.toUpper) else c

/-- Model of the Python title method restricted to the alphabetic
characters the resolver deals with. -/
def pyTitle (s : String) : String :=
  ((s.toList.foldl
      (fun (acc : List Char × Bool) c => (acc.1 ++ [pyTitleChar acc.2 c], c.isAlpha))
      ([], false)).1).asString

/-- Model of the Python strip method: drop leading and trailing
whitespace. -/
def pyStrip (s : String) : String :=
  (((s.toList.dropWhile Char.isWhitespace).reverse.dropWhile Char.isWhitespace).reverse).asString

/-- The city token: the part of the string before the first comma, which is
entry zero of the comma-split of the string. -/
def cityToken (s : String) : String :=
  (s.toList.takeWhile (fun c => ! (c == (',')))).asString

/-- Embedding of get_coordinates: normalize the input by stripping and
title-casing, then try the full string, the substring before the first
comma, and that substring with a guessed country, stopping at the first
hit.  A raised exception anywhere in the chain is caught and yields none;
exhausting the chain also yields none. -/
def get_coordinates (geocode : String → GeoResult) (location_text : String) :
    Option (ℚ × ℚ × String) :=
  let location_text := pyTitle (pyStrip location_text)
  match geocode location_text with
  | .found lat lon address => some (lat, lon, address)
  | .raised _ => none
  | .notFound =>
    let city_only := cityToken location_text
    match geocode city_only with
    | .found lat lon address => some (lat, lon, address)
    | .raised _ => none
    | .notFound =>
      match geocode (city_only ++ (", United States")) with
      | .found lat lon address => some (lat, lon, address)
      | .raised _ => none
      | .notFound => none

/-- Embedding of get_local_timezone: look the coordinates up in the
timezone-boundary dataset and default to UTC when no zone is found. -/
def get_local_timezone (timezone_at : ℚ → ℚ → Option String)
    (pytz_timezone : String → Timezone) (lat lon : ℚ) : Timezone :=
  match timezone_at lat lon with
  | some tz_name => pytz_timezone tz_name
  | none => utcTz

/-- Embedding of find_sunrise_sunset: scan the 1440 whole minutes of the
civil day starting at the local midnight dateStart, localize each sample,
convert it to UTC, evaluate the altitude there, and record the first
strictly positive sample as sunrise and the first strictly negative sample
after a recorded sunrise as sunset. -/
def find_sunrise_sunset (get_altitude : ℚ → ℚ → ℤ → ℚ) (lat lon : ℚ)
    (dateStart : ℤ) (tz : Timezone) : Option ℤ × Option ℤ :=
  (List.range 1440).foldl
    (fun st (minute : ℕ) =>
      let dt_local : ℤ := dateStart + (minute : ℤ)
      let dt_utc : ℤ := toUTC tz dt_local
      let altitude : ℚ := get_altitude lat lon dt_utc
      let sunrise : Option ℤ := if 0 < altitude ∧ st.1 = none then some dt_local else st.1
      let sunset : Option ℤ :=
        if altitude < 0 ∧ ¬ sunrise = none ∧ st.2 = none then some dt_local else st.2
      (sunrise, sunset))
    (none, none)

/-- Day count of a proleptic Gregorian civil date relative to 1970-01-01,
used to give the calendar dates of the source their minute encodings. -/
def daysFromCivil (y m d : ℤ) : ℤ :=
  let y := if m ≤ 2 then y - 1 else y
  let era := y.fdiv 400
  let yoe := y - era * 400
  let mp := (m + 9) % 12
  let doy := (153 * mp + 2).fdiv 5 + d - 1
  let doe := yoe * 365 + yoe.fdiv 4 - yoe.fdiv 100 + doy
  era * 146097 + doe - 719468

/-- Local midnight of a civil date, in minutes. -/
def minutesOfDate (y m d : ℤ) : ℤ := 1440 * daysFromCivil y m d

/-- The seasons table of the callback: each entry holds the local instant
of 12:00 wall clock on the fixed 2025 equinox or solstice date, in the
source order Spring, Summer, Fall, Winter. -/
def seasons : List (String × ℤ) :=
  [("Spring", minutesOfDate 2025 3 20 + 720),
   ("Summer", minutesOfDate 2025 6 20 + 720),
   ("Fall", minutesOfDate 2025 9 22 + 720),
   ("Winter", minutesOfDate 2025 12 21 + 720)]

/-- The solar_events table: labelled local midnights of the four fixed
2025 calendar dates. -/
def solar_events : List (String × ℤ) :=
  [("Spring Equinox", minutesOfDate 2025 3 20),
   ("Summer Solstice", minutesOfDate 2025 6 20),
   ("Fall Equinox", minutesOfDate 2025 9 22),
   ("Winter Solstice", minutesOfDate 2025 12 21)]

/-- The sun-info panel payload: resolved address and coordinates together
with the altitude and azimuth shown on the panel. -/
structure SunInfo where
  address : String
  lat : ℚ
  lon : ℚ
  altitude : ℚ
  azimuth : ℚ
deriving DecidableEq

/-- The computational payload of the callback outputs: the status message,
the seasonal rows (label, noon altitude, day events), the yesterday
altitude series, the sun-info panel, and the calendar items. -/
structure DashOutput where
  status : String
  seasonal : List (String × ℚ × (Option ℤ × Option ℤ))
  yesterday : List (ℤ × ℚ)
  sunInfo : Option SunInfo
  calendar : List (String × ℤ)
deriving DecidableEq

/-- Embedding of the update_dashboard callback.  Empty or missing input
returns the prompt output; a failed resolution returns the not-found
output; otherwise the timezone is resolved and the seasonal rows, the
yesterday series, the sun-info panel and the calendar items are computed. -/
def update_dashboard (geocode : String → GeoResult)
    (timezone_at : ℚ → ℚ → Option String) (pytz_timezone : String → Timezone)
    (get_altitude get_azimuth : ℚ → ℚ → ℤ → ℚ)
    (now_local : Timezone → ℤ)
    (n_clicks : ℕ) (location_text : Option String) : DashOutput :=
  if location_text = none ∨ location_text = some ("") then
    ⟨"Please enter a city and country.", [], [], none, []⟩
  else
    let s := location_text.getD ("")
    match get_coordinates geocode s with
    | none => ⟨"Could not find location: " ++ s, [], [], none, []⟩
    | some (lat, lon, full_address) =>
      let local_tz := get_local_timezone timezone_at pytz_timezone lat lon
      let seasonal := seasons.map (fun p =>
        let dt_utc := toUTC local_tz p.2
        let altitude := get_altitude lat lon dt_utc
        let events := find_sunrise_sunset get_altitude lat lon (p.2 - 720) local_tz
        (p.1, altitude, events))
      let today := (now_local local_tz).fdiv 1440
      let yesterdayStart := (today - 1) * 1440
      let times := (List.range 96).map (fun (i : ℕ) => yesterdayStart + 15 * (i : ℤ))
      let yesterdayRows := times.map (fun t => (t, get_altitude lat lon (toUTC local_tz t)))
      let noon := today * 1440 + 720
      let noon_utc := toUTC local_tz noon
      let sun_info : SunInfo :=
        ⟨full_address, lat, lon, get_altitude lat lon noon_utc, get_azimuth lat lon noon_utc⟩
      let calendar_items := solar_events.map (fun p => (p.1, p.2 + 720))
      ⟨"", seasonal, yesterdayRows, some sun_info, calendar_items⟩

/-- The local wall-clock instants at which the callback evaluates solar
altitude or azimuth: the four seasonal noons, the 1440 scan samples of each
of the four scanned days, the 96 quarter-hour samples of yesterday, and
the sun-info noon of the current date. -/
def localSolarSamples (tz : Timezone) (now_local : Timezone → ℤ) : List ℤ :=
  seasons.map (fun p => p.2)
  ++ seasons.flatMap (fun p => (List.range 1440).map (fun (m : ℕ) => (p.2 - 720) + (m : ℤ)))
  ++ (List.range 96).map (fun (i : ℕ) => ((now_local tz).fdiv 1440 - 1) * 1440 + 15 * (i : ℤ))
  ++ [((now_local tz).fdiv 1440) * 1440 + 720]

/-- Modelled from the spec: the altitude of the m-th scanned minute sample
of the civil day, evaluated after conversion of the local wall-clock sample
to UTC. -/
def scannedAltitude (get_altitude : ℚ → ℚ → ℤ → ℚ) (lat lon : ℚ)
    (dateStart : ℤ) (tz : Timezone) (m : ℕ) : ℚ :=
  get_altitude lat lon (toUTC tz (dateStart + (m : ℤ)))

/-- Modelled from the spec: the first of the n scanned minutes whose
altitude is strictly positive. -/
def firstPositiveMinute (alt : ℕ → ℚ) (n : ℕ) : Option ℕ :=
  (List.range n).find? (fun m => decide (0 < alt m))

/-- Modelled from the spec: the first of the n scanned minutes strictly
after minute r whose altitude is strictly negative. -/
def firstNegativeAfter (alt : ℕ → ℚ) (r n : ℕ) : Option ℕ :=
  (List.range n).find? (fun m => decide (r < m ∧ alt m < 0))

/-- One step of the sunrise/sunset scan carrying the pair of recorded
events, abstracted over the per-minute altitude. -/
def sunScanStep (alt : ℕ → ℚ) (dateStart : ℤ) (st : Option ℤ × Option ℤ)
    (minute : ℕ) : Option ℤ × Option ℤ :=
  let dt_local : ℤ := dateStart + (minute : ℤ)
  let altitude : ℚ := alt minute
  let sunrise : Option ℤ := if 0 < altitude ∧ st.1 = none then some dt_local else st.1
  let sunset : Option ℤ :=
    if altitude < 0 ∧ ¬ sunrise = none ∧ st.2 = none then some dt_local else st.2
  (sunrise, sunset)

/-- The sunrise/sunset scan over the first n minutes. -/
def sunScan (alt : ℕ → ℚ) (dateStart : ℤ) (n : ℕ) : Option ℤ × Option ℤ :=
  (List.range n).foldl (sunScanStep alt dateStart) (none, none)

/-- Sample altitude routine whose sun is up between UTC minutes 360 and
999 of the scanned day. -/
def stepAlt : ℚ → ℚ → ℤ → ℚ :=
  fun _ _ t => if t < 360 then -1 else if t < 1000 then 1 else -1

/-- Sample altitude routine for a polar night: always below the horizon. -/
def polarNightAlt : ℚ → ℚ → ℤ → ℚ := fun _ _ _ => -1

/-- Sample geocoder knowing only the city token Tokyo. -/
def tokyoGeocoder : String → GeoResult :=
  fun s => if s = "Tokyo" then .found 35 139 ("Tokyo, Japan, Sample Address") else .notFound

/-- Sample geocoder that raises on every query except the city token
Springfield. -/
def springfieldGeocoder : String → GeoResult :=
  fun s =>
    if s = "Springfield" then .found 39 (-89) ("Springfield, Illinois")
    else .raised ("service timeout")

/-- Sample geocoder resolving every query to a fixed location. -/
def fixedGeocoder : String → GeoResult := fun _ => .found 1 2 ("Resolved Address")

/-- Sample geocoder resolving every query to the origin. -/
def originGeocoder : String → GeoResult := fun _ => .found 0 0 ("Origin")

/-- Sample geocoder finding nothing. -/
def emptyGeocoder : String → GeoResult := fun _ => .notFound

/-- Sample timezone dataset with no coverage. -/
def noZone : ℚ → ℚ → Option String := fun _ _ => none

/-- Sample timezone table sending every name to UTC. -/
def constZone : String → Timezone := fun _ => utcTz

/-- Sample clock reading 14500 minutes, ten days and four hours past the
epoch. -/
def clockDayTen : Timezone → ℤ := fun _ => 14500

/-- Sample clock reading 100 minutes past local midnight of day zero. -/
def clockEarly : Timezone → ℤ := fun _ => 100

/-- Sample altitude routine returning the instant itself. -/
def identityAlt : ℚ → ℚ → ℤ → ℚ := fun _ _ t => (t : ℚ)

/-- Sample altitude routine agreeing with identityAlt on nonnegative
instants and differing on negative ones. -/
def clippedAlt : ℚ → ℚ → ℤ → ℚ := fun _ _ t => if t < 0 then 99 else (t : ℚ)

/-- Sample azimuth routine. -/
def zeroAz : ℚ → ℚ → ℤ → ℚ := fun _ _ _ => 0

/-! ## Scan infrastructure lemmas -/

theorem find_sunrise_sunset_eq_sunScan (g : ℚ → ℚ → ℤ → ℚ) (lat lon : ℚ)
    (dateStart : ℤ) (tz : Timezone) :
    find_sunrise_sunset g lat lon dateStart tz
      = sunScan (scannedAltitude g lat lon dateStart tz) dateStart 1440 := by
  unfold find_sunrise_sunset sunScan
  apply List.foldl_ext
  intro st minute hmem
  simp only [sunScanStep, scannedAltitude]

theorem sunScan_succ (alt : ℕ → ℚ) (d : ℤ) (n : ℕ) :
    sunScan alt d (n + 1) = sunScanStep alt d (sunScan alt d n) n := by
  unfold sunScan
  rw [List.range_succ, List.foldl_append, List.foldl_cons, List.foldl_nil]

theorem firstPositiveMinute_succ (alt : ℕ → ℚ) (n : ℕ) :
    firstPositiveMinute alt (n + 1)
      = (firstPositiveMinute alt n).or (if 0 < alt n then some n else none) := by
  unfold firstPositiveMinute
  rw [List.range_succ, List.find?_append]
  congr 1
  by_cases h : 0 < alt n <;> simp [h]

theorem firstNegativeAfter_succ (alt : ℕ → ℚ) (r n : ℕ) :
    firstNegativeAfter alt r (n + 1)
      = (firstNegativeAfter alt r n).or
          (if r < n ∧ alt n < 0 then some n else none) := by
  unfold firstNegativeAfter
  rw [List.range_succ, List.find?_append]
  congr 1
  by_cases h : r < n ∧ alt n < 0 <;> simp [h]

theorem range_find?_eq_some_iff (p : ℕ → Bool) (n m : ℕ) :
    (List.range n).find? p = some m
      ↔ m < n ∧ p m = true ∧ ∀ k, k < m → p k = false := by
  induction n generalizing m with
  | zero => simp
  | succ n ih =>
    rw [List.range_succ, List.find?_append]
    cases hf : (List.range n).find? p with
    | some a =>
      obtain ⟨ha1, ha2, ha3⟩ := (ih a).mp hf
      simp only [Option.or_some, Option.some.injEq]
      constructor
      · rintro rfl
        exact ⟨Nat.lt_succ_of_lt ha1, ha2, ha3⟩
      · rintro ⟨hm1, hm2, hm3⟩
        rcases Nat.lt_trichotomy a m with h | h | h
        · exact absurd ha2 (by simp [hm3 a h])
        · exact h
        · exact absurd hm2 (by simp [ha3 m h])
    | none =>
      have hnone : ∀ k, k < n → p k = false := by
        intro k hk
        have := List.find?_eq_none.mp hf k (List.mem_range.mpr hk)
        simpa using this
      simp only [Option.none_or, List.find?_singleton]
      by_cases hp : p n = true
      · simp only [hp, if_pos, Option.some.injEq]
        constructor
        · rintro rfl
          exact ⟨Nat.lt_succ_self n, hp, hnone⟩
        · rintro ⟨hm1, hm2, hm3⟩
          rcases Nat.lt_succ_iff_lt_or_eq.mp hm1 with h | h
          · have := hnone m h
            rw [this] at hm2
            exact absurd hm2 (by simp)
          · exact h.symm
      · simp only [Bool.not_eq_true] at hp
        simp only [hp, Bool.false_eq_true, if_neg, not_false_iff]
        constructor
        · rintro ⟨⟩
        · rintro ⟨hm1, hm2, hm3⟩
          rcases Nat.lt_succ_iff_lt_or_eq.mp hm1 with h | h
          · have := hnone m h
            rw [this] at hm2
            exact absurd hm2 (by simp)
          · rw [h] at hm2
            rw [hp] at hm2
            exact absurd hm2 (by simp)

theorem range_find?_eq_none_iff (p : ℕ → Bool) (n : ℕ) :
    (List.range n).find? p = none ↔ ∀ m, m < n → p m = false := by
  rw [List.find?_eq_none]
  constructor
  · intro h m hm
    simpa using h m (List.mem_range.mpr hm)
  · intro h x hx
    simp [h x (List.mem_range.mp hx)]

theorem firstPositiveMinute_eq_some_iff (alt : ℕ → ℚ) (n m : ℕ) :
    firstPositiveMinute alt n = some m
      ↔ m < n ∧ 0 < alt m ∧ ∀ k, k < m → ¬ 0 < alt k := by
  unfold firstPositiveMinute
  rw [range_find?_eq_some_iff]
  simp

theorem firstPositiveMinute_eq_none_iff (alt : ℕ → ℚ) (n : ℕ) :
    firstPositiveMinute alt n = none ↔ ∀ m, m < n → ¬ 0 < alt m := by
  unfold firstPositiveMinute
  rw [range_find?_eq_none_iff]
  simp

theorem firstNegativeAfter_eq_some_iff (alt : ℕ → ℚ) (r n m : ℕ) :
    firstNegativeAfter alt r n = some m
      ↔ m < n ∧ (r < m ∧ alt m < 0) ∧ ∀ k, k < m → ¬ (r < k ∧ alt k < 0) := by
  unfold firstNegativeAfter
  rw [range_find?_eq_some_iff]
  simp

theorem firstNegativeAfter_eq_none_iff (alt : ℕ → ℚ) (r n : ℕ) :
    firstNegativeAfter alt r n = none ↔ ∀ m, m < n → ¬ (r < m ∧ alt m < 0) := by
  unfold firstNegativeAfter
  rw [range_find?_eq_none_iff]
  simp

theorem sunScan_spec (alt : ℕ → ℚ) (d : ℤ) (n : ℕ) :
    (sunScan alt d n).1 = (firstPositiveMinute alt n).map (fun (m : ℕ) => d + (m : ℤ)) ∧
    (sunScan alt d n).2 = (match firstPositiveMinute alt n with
      | none => none
      | some r => (firstNegativeAfter alt r n).map (fun (m : ℕ) => d + (m : ℤ))) := by
  induction n with
  | zero => exact ⟨rfl, rfl⟩
  | succ n ih =>
    obtain ⟨ih1, ih2⟩ := ih
    rw [sunScan_succ, firstPositiveMinute_succ]
    cases hF : firstPositiveMinute alt n with
    | some r =>
      have hr : r < n := ((firstPositiveMinute_eq_some_iff alt n r).mp hF).1
      rw [hF] at ih1 ih2
      simp only [Option.map_some'] at ih1
      replace ih2 : (sunScan alt d n).2
          = (firstNegativeAfter alt r n).map (fun (m : ℕ) => d + (m : ℤ)) := ih2
      constructor
      · simp only [Option.or_some, Option.map_some']
        simp [sunScanStep, ih1]
      · simp only [Option.or_some]
        show (sunScanStep alt d (sunScan alt d n) n).2
          = (firstNegativeAfter alt r (n + 1)).map (fun (m : ℕ) => d + (m : ℤ))
        rw [firstNegativeAfter_succ]
        cases hG : firstNegativeAfter alt r n with
        | some m =>
          rw [hG] at ih2
          simp only [Option.map_some'] at ih2
          simp [sunScanStep, ih1, ih2]
        | none =>
          rw [hG] at ih2
          simp only [Option.map_none'] at ih2
          simp only [Option.none_or]
          by_cases hneg : alt n < 0
          · have hra : r < n ∧ alt n < 0 := ⟨hr, hneg⟩
            simp [sunScanStep, ih1, ih2, hneg, hra]
          · have hra : ¬ (r < n ∧ alt n < 0) := fun h => hneg h.2
            simp [sunScanStep, ih1, ih2, hneg, hra]
    | none =>
      rw [hF] at ih1 ih2
      simp only [Option.map_none'] at ih1
      replace ih2 : (sunScan alt d n).2 = none := ih2
      by_cases hpos : 0 < alt n
      · have hGnone : firstNegativeAfter alt n (n + 1) = none := by
          rw [firstNegativeAfter_eq_none_iff]
          intro m hm
          rintro ⟨h1, h2⟩
          omega
        have hnn : ¬ alt n < 0 := by
          intro h
          exact absurd hpos (by linarith)
        rw [if_pos hpos]
        constructor
        · simp only [Option.none_or, Option.map_some']
          simp [sunScanStep, ih1, ih2, hpos]
        · simp only [Option.none_or]
          show (sunScanStep alt d (sunScan alt d n) n).2
            = (firstNegativeAfter alt n (n + 1)).map (fun (m : ℕ) => d + (m : ℤ))
          rw [hGnone]
          simp [sunScanStep, ih1, ih2, hpos, hnn]
      · rw [if_neg hpos]
        constructor
        · simp only [Option.none_or, Option.map_none']
          simp [sunScanStep, ih1, ih2, hpos]
        · simp only [Option.none_or]
          show (sunScanStep alt d (sunScan alt d n) n).2 = none
          simp [sunScanStep, ih1, ih2, hpos]

theorem sunScanStep_congr (alt₁ alt₂ : ℕ → ℚ) (d : ℤ) (st : Option ℤ × Option ℤ)
    (n : ℕ) (h : alt₁ n = alt₂ n) :
    sunScanStep alt₁ d st n = sunScanStep alt₂ d st n := by
  simp [sunScanStep, h]

theorem sunScan_congr (alt₁ alt₂ : ℕ → ℚ) (d : ℤ) (n : ℕ)
    (h : ∀ m, m < n → alt₁ m = alt₂ m) : sunScan alt₁ d n = sunScan alt₂ d n := by
  induction n with
  | zero => rfl
  | succ n ih =>
    rw [sunScan_succ, sunScan_succ, ih (fun m hm => h m (Nat.lt_succ_of_lt hm)),
      sunScanStep_congr alt₁ alt₂ d _ n (h n (Nat.lt_succ_self n))]

theorem find_sunrise_sunset_congr (g₁ g₂ : ℚ → ℚ → ℤ → ℚ) (lat lon : ℚ)
    (d : ℤ) (tz : Timezone)
    (h : ∀ m : ℕ, m < 1440 →
      g₁ lat lon (toUTC tz (d + (m : ℤ))) = g₂ lat lon (toUTC tz (d + (m : ℤ)))) :
    find_sunrise_sunset g₁ lat lon d tz = find_sunrise_sunset g₂ lat lon d tz := by
  rw [find_sunrise_sunset_eq_sunScan, find_sunrise_sunset_eq_sunScan]
  exact sunScan_congr _ _ d 1440 (fun m hm => by
    simpa [scannedAltitude] using h m hm)

/-! ## Claim theorems -/

/-- Claim C1: for every latitude, longitude, civil date and timezone, the
sunrise/sunset finder scans exactly the 1440 whole minutes of the civil day
in chronological order from local midnight, converts each local wall-clock
sample to UTC before evaluating the altitude, records sunrise at the first
sample with strictly positive altitude and sunset at the first sample
strictly after sunrise with strictly negative altitude, leaves sunrise
absent when no sample is strictly positive, and leaves sunset absent when
no strictly negative sample follows sunrise. -/
theorem find_sunrise_sunset_scan_correct
    (get_altitude : ℚ → ℚ → ℤ → ℚ) (lat lon : ℚ) (dateStart : ℤ) (tz : Timezone) :
    ((find_sunrise_sunset get_altitude lat lon dateStart tz).1
        = (firstPositiveMinute (scannedAltitude get_altitude lat lon dateStart tz) 1440).map
            (fun (m : ℕ) => dateStart + (m : ℤ)))
    ∧ (firstPositiveMinute (scannedAltitude get_altitude lat lon dateStart tz) 1440 = none
        → (find_sunrise_sunset get_altitude lat lon dateStart tz).2 = none)
    ∧ (∀ r : ℕ,
        firstPositiveMinute (scannedAltitude get_altitude lat lon dateStart tz) 1440 = some r
        → (find_sunrise_sunset get_altitude lat lon dateStart tz).2
            = (firstNegativeAfter (scannedAltitude get_altitude lat lon dateStart tz) r 1440).map
                (fun (m : ℕ) => dateStart + (m : ℤ)))
    ∧ (∀ m : ℕ,
        firstPositiveMinute (scannedAltitude get_altitude lat lon dateStart tz) 1440 = some m
          ↔ m < 1440 ∧ 0 < scannedAltitude get_altitude lat lon dateStart tz m
              ∧ ∀ k, k < m → ¬ 0 < scannedAltitude get_altitude lat lon dateStart tz k)
    ∧ (firstPositiveMinute (scannedAltitude get_altitude lat lon dateStart tz) 1440 = none
          ↔ ∀ m, m < 1440 → ¬ 0 < scannedAltitude get_altitude lat lon dateStart tz m)
    ∧ (∀ r m : ℕ,
        firstNegativeAfter (scannedAltitude get_altitude lat lon dateStart tz) r 1440 = some m
          ↔ m < 1440 ∧ (r < m ∧ scannedAltitude get_altitude lat lon dateStart tz m < 0)
              ∧ ∀ k, k < m → ¬ (r < k ∧ scannedAltitude get_altitude lat lon dateStart tz k < 0))
    ∧ (∀ r : ℕ,
        firstNegativeAfter (scannedAltitude get_altitude lat lon dateStart tz) r 1440 = none
          ↔ ∀ m, m < 1440 → ¬ (r < m ∧ scannedAltitude get_altitude lat lon dateStart tz m < 0)) := by
  refine ⟨?_, ?_, ?_, ?_, ?_, ?_, ?_⟩
  · rw [find_sunrise_sunset_eq_sunScan]
    exact (sunScan_spec _ dateStart 1440).1
  · intro hFc
    rw [find_sunrise_sunset_eq_sunScan, (sunScan_spec _ dateStart 1440).2, hFc]
  · intro r hFc
    rw [find_sunrise_sunset_eq_sunScan, (sunScan_spec _ dateStart 1440).2, hFc]
  · intro m
    exact firstPositiveMinute_eq_some_iff _ 1440 m
  · exact firstPositiveMinute_eq_none_iff _ 1440
  · intro r m
    exact firstNegativeAfter_eq_some_iff _ r 1440 m
  · intro r
    exact firstNegativeAfter_eq_none_iff _ r 1440

set_option maxRecDepth 4096 in
/-- Witness for C1: with the sample altitude routine whose sun rises at
minute 360, the scan records sunrise at local minute 360. -/
theorem find_sunrise_sunset_scan_correct_witness :
    (find_sunrise_sunset stepAlt 0 0 0 utcTz).1 = some ((360 : ℤ)) := by
  have h := find_sunrise_sunset_scan_correct stepAlt 0 0 0 utcTz
  have h360 : firstPositiveMinute (scannedAltitude stepAlt 0 0 0 utcTz) 1440 = some 360 :=
    (h.2.2.2.1 360).mpr ⟨by norm_num, by decide, by decide⟩
  rw [h.1, h360]
  norm_num

/-- Claim C2: if sunset is present then sunrise is present and strictly
precedes it, both within the scanned civil day; a day whose scanned
altitudes are all strictly negative yields neither event, and a day whose
scanned altitudes are all strictly positive yields no sunset. -/
theorem find_sunrise_sunset_order
    (get_altitude : ℚ → ℚ → ℤ → ℚ) (lat lon : ℚ) (dateStart : ℤ) (tz : Timezone) :
    (∀ s : ℤ, (find_sunrise_sunset get_altitude lat lon dateStart tz).2 = some s →
      ∃ r : ℤ, (find_sunrise_sunset get_altitude lat lon dateStart tz).1 = some r
        ∧ dateStart ≤ r ∧ r < s ∧ s < dateStart + 1440)
    ∧ ((∀ m : ℕ, m < 1440 → scannedAltitude get_altitude lat lon dateStart tz m < 0) →
        find_sunrise_sunset get_altitude lat lon dateStart tz = (none, none))
    ∧ ((∀ m : ℕ, m < 1440 → 0 < scannedAltitude get_altitude lat lon dateStart tz m) →
        (find_sunrise_sunset get_altitude lat lon dateStart tz).2 = none) := by
  have hscan := sunScan_spec (scannedAltitude get_altitude lat lon dateStart tz) dateStart 1440
  have heq := find_sunrise_sunset_eq_sunScan get_altitude lat lon dateStart tz
  refine ⟨?_, ?_, ?_⟩
  · intro s hs
    rw [heq] at hs ⊢
    rcases hFc : firstPositiveMinute (scannedAltitude get_altitude lat lon dateStart tz) 1440
      with _ | r
    · rw [hscan.2, hFc] at hs
      exact absurd hs (by simp)
    · have h1 : (sunScan (scannedAltitude get_altitude lat lon dateStart tz) dateStart 1440).1
          = some (dateStart + (r : ℤ)) := by
        rw [hscan.1, hFc]
        rfl
      have h2 : (sunScan (scannedAltitude get_altitude lat lon dateStart tz) dateStart 1440).2
          = (firstNegativeAfter (scannedAltitude get_altitude lat lon dateStart tz) r 1440).map
              (fun (m : ℕ) => dateStart + (m : ℤ)) := by
        rw [hscan.2, hFc]
      rw [h2] at hs
      rcases hGc : firstNegativeAfter (scannedAltitude get_altitude lat lon dateStart tz) r 1440
        with _ | m
      · rw [hGc] at hs
        exact absurd hs (by simp)
      · rw [hGc] at hs
        simp only [Option.map_some'] at hs
        have hs2 : dateStart + (m : ℤ) = s := Option.some.inj hs
        have hGm := (firstNegativeAfter_eq_some_iff
          (scannedAltitude get_altitude lat lon dateStart tz) r 1440 m).mp hGc
        have hmlt : m < 1440 := hGm.1
        have hrm : r < m := hGm.2.1.1
        refine ⟨dateStart + (r : ℤ), h1, ?_, ?_, ?_⟩ <;> omega
  · intro hneg
    have hFc : firstPositiveMinute (scannedAltitude get_altitude lat lon dateStart tz) 1440
        = none := by
      rw [firstPositiveMinute_eq_none_iff]
      intro m hm
      have := hneg m hm
      linarith
    rw [heq]
    have h1 : (sunScan (scannedAltitude get_altitude lat lon dateStart tz) dateStart 1440).1
        = none := by
      rw [hscan.1, hFc]
      rfl
    have h2 : (sunScan (scannedAltitude get_altitude lat lon dateStart tz) dateStart 1440).2
        = none := by
      rw [hscan.2, hFc]
    rw [Prod.ext_iff]
    exact ⟨h1, h2⟩
  · intro hpos
    have hF0 : firstPositiveMinute (scannedAltitude get_altitude lat lon dateStart tz) 1440
        = some 0 := by
      rw [firstPositiveMinute_eq_some_iff]
      exact ⟨by norm_num, hpos 0 (by norm_num), fun k hk => absurd hk (Nat.not_lt_zero k)⟩
    have hGn : firstNegativeAfter (scannedAltitude get_altitude lat lon dateStart tz) 0 1440
        = none := by
      rw [firstNegativeAfter_eq_none_iff]
      intro m hm
      rintro ⟨hm1, hm2⟩
      have := hpos m hm
      linarith
    rw [heq, hscan.2, hF0]
    show (firstNegativeAfter (scannedAltitude get_altitude lat lon dateStart tz) 0 1440).map
      (fun (m : ℕ) => dateStart + (m : ℤ)) = none
    rw [hGn]
    rfl

/-- Witness for C2: a day whose altitude samples are all strictly negative
yields neither sunrise nor sunset. -/
theorem find_sunrise_sunset_order_witness :
    find_sunrise_sunset polarNightAlt 0 0 0 utcTz = (none, none) :=
  (find_sunrise_sunset_order polarNightAlt 0 0 0 utcTz).2.1
    (fun m _ => by norm_num [scannedAltitude, polarNightAlt])

/-- Claim C4: the location resolver normalizes its input by trimming and
title-casing, then geocodes the full normalized string, the substring
before the first comma, and that substring with a default country guess, in
this order, stopping at the first success; when all three attempts find
nothing it returns none, and being a total function into an Option it never
raises to the caller. -/
theorem get_coordinates_fallback_order (geocode : String → GeoResult)
    (location_text : String) :
    (∀ lat lon address,
        geocode (pyTitle (pyStrip location_text)) = .found lat lon address →
        get_coordinates geocode location_text = some (lat, lon, address))
    ∧ (geocode (pyTitle (pyStrip location_text)) = .notFound →
       ∀ lat lon address,
        geocode (cityToken (pyTitle (pyStrip location_text))) = .found lat lon address →
        get_coordinates geocode location_text = some (lat, lon, address))
    ∧ (geocode (pyTitle (pyStrip location_text)) = .notFound →
       geocode (cityToken (pyTitle (pyStrip location_text))) = .notFound →
       ∀ lat lon address,
        geocode ((cityToken (pyTitle (pyStrip location_text))) ++ (", United States"))
          = .found lat lon address →
        get_coordinates geocode location_text = some (lat, lon, address))
    ∧ (geocode (pyTitle (pyStrip location_text)) = .notFound →
       geocode (cityToken (pyTitle (pyStrip location_text))) = .notFound →
       geocode ((cityToken (pyTitle (pyStrip location_text))) ++ (", United States"))
          = .notFound →
       get_coordinates geocode location_text = none) := by
  refine ⟨?_, ?_, ?_, ?_⟩
  · intro lat lon address h1
    simp [get_coordinates, h1]
  · intro h1 lat lon address h2
    simp [get_coordinates, h1, h2]
  · intro h1 h2 lat lon address h3
    simp [get_coordinates, h1, h2, h3]
  · intro h1 h2 h3
    simp [get_coordinates, h1, h2, h3]

/-- Witness for C4: a geocoder knowing only the bare city token resolves
the mixed-case input through the second fallback. -/
theorem get_coordinates_fallback_order_witness :
    get_coordinates tokyoGeocoder ("  tokyo, japan ")
      = some (35, 139, ("Tokyo, Japan, Sample Address")) :=
  (get_coordinates_fallback_order tokyoGeocoder ("  tokyo, japan ")).2.1
    (by decide) 35 139 ("Tokyo, Japan, Sample Address") (by decide)

/-- Claim C5, amended: an exception raised by any geocoding attempt is
caught, but it aborts the whole fallback chain: the resolver returns none
at once instead of proceeding to the remaining fallbacks. -/
theorem get_coordinates_exception_aborts (geocode : String → GeoResult)
    (location_text : String) :
    (∀ msg, geocode (pyTitle (pyStrip location_text)) = .raised msg →
        get_coordinates geocode location_text = none)
    ∧ (geocode (pyTitle (pyStrip location_text)) = .notFound →
       ∀ msg, geocode (cityToken (pyTitle (pyStrip location_text))) = .raised msg →
        get_coordinates geocode location_text = none)
    ∧ (geocode (pyTitle (pyStrip location_text)) = .notFound →
       geocode (cityToken (pyTitle (pyStrip location_text))) = .notFound →
       ∀ msg, geocode ((cityToken (pyTitle (pyStrip location_text))) ++ (", United States"))
          = .raised msg →
        get_coordinates geocode location_text = none) := by
  refine ⟨?_, ?_, ?_⟩
  · intro msg h1
    simp [get_coordinates, h1]
  · intro h1 msg h2
    simp [get_coordinates, h1, h2]
  · intro h1 h2 msg h3
    simp [get_coordinates, h1, h2, h3]

/-- Witness for C5 amended: a geocoder raising on the full-string attempt
makes the resolver return none. -/
theorem get_coordinates_exception_aborts_witness :
    get_coordinates springfieldGeocoder ("Springfield, Nowhere") = none :=
  (get_coordinates_exception_aborts springfieldGeocoder ("Springfield, Nowhere")).1
    ("service timeout") (by decide)

/-- Counterexample for C5 as stated: the full-string attempt raises, the
city-token attempt would succeed, yet the resolver returns none rather
than proceeding to the city-token fallback result. -/
theorem get_coordinates_exception_counterexample :
    springfieldGeocoder (pyTitle (pyStrip ("Springfield, Nowhere"))) = .raised ("service timeout")
    ∧ springfieldGeocoder (cityToken (pyTitle (pyStrip ("Springfield, Nowhere"))))
        = .found 39 (-89) ("Springfield, Illinois")
    ∧ get_coordinates springfieldGeocoder ("Springfield, Nowhere") = none
    ∧ ¬ get_coordinates springfieldGeocoder ("Springfield, Nowhere")
        = some (39, -89, ("Springfield, Illinois")) := by
  refine ⟨by decide, by decide, by decide, by decide⟩

/-- Claim C7: the timezone resolver returns the timezone found for the
coordinates and defaults to UTC when the dataset finds no zone; being a
total function it never raises to its caller. -/
theorem get_local_timezone_total (timezone_at : ℚ → ℚ → Option String)
    (pytz_timezone : String → Timezone) (lat lon : ℚ) :
    (∀ tz_name, timezone_at lat lon = some tz_name →
        get_local_timezone timezone_at pytz_timezone lat lon = pytz_timezone tz_name)
    ∧ (timezone_at lat lon = none →
        get_local_timezone timezone_at pytz_timezone lat lon = utcTz) := by
  constructor
  · intro tz_name h
    simp [get_local_timezone, h]
  · intro h
    simp [get_local_timezone, h]

/-- Witness for C7: a dataset naming a fixed zone for the Yakima
coordinates makes the resolver return the table entry for that zone. -/
theorem get_local_timezone_total_witness :
    get_local_timezone (fun _ _ => some ("America/Los_Angeles"))
      (fun _ => Timezone.mk (fun _ => -480)) 46 (-120)
      = Timezone.mk (fun _ => -480) :=
  (get_local_timezone_total (fun _ _ => some ("America/Los_Angeles"))
      (fun _ => Timezone.mk (fun _ => -480)) 46 (-120)).1
    ("America/Los_Angeles") rfl

/-- Claim C10: a missing or empty location input makes the callback return
the prompt message with empty figures, independently of every collaborator,
so no geocoding, timezone resolution or solar computation takes place. -/
theorem update_dashboard_empty_input (geocode : String → GeoResult)
    (timezone_at : ℚ → ℚ → Option String) (pytz_timezone : String → Timezone)
    (get_altitude get_azimuth : ℚ → ℚ → ℤ → ℚ)
    (now_local : Timezone → ℤ) (n_clicks : ℕ) :
    update_dashboard geocode timezone_at pytz_timezone get_altitude get_azimuth
        now_local n_clicks none
      = ⟨"Please enter a city and country.", [], [], none, []⟩
    ∧ update_dashboard geocode timezone_at pytz_timezone get_altitude get_azimuth
        now_local n_clicks (some (""))
      = ⟨"Please enter a city and country.", [], [], none, []⟩ := by
  constructor <;> rfl

/-- Claim C6: when the resolver returns none for a nonempty input, the
callback returns the could-not-find output, independently of the timezone
resolver, the position calculator and the clock, so none of them is
invoked; the outcome is returned, not raised. -/
theorem update_dashboard_not_found (geocode : String → GeoResult)
    (timezone_at : ℚ → ℚ → Option String) (pytz_timezone : String → Timezone)
    (get_altitude get_azimuth : ℚ → ℚ → ℤ → ℚ)
    (now_local : Timezone → ℤ) (n_clicks : ℕ) (s : String)
    (hs : ¬ s = "") (hc : get_coordinates geocode s = none) :
    update_dashboard geocode timezone_at pytz_timezone get_altitude get_azimuth
        now_local n_clicks (some s)
      = ⟨"Could not find location: " ++ s, [], [], none, []⟩ := by
  simp [update_dashboard, hs, hc]

/-- Witness for C6: a geocoder finding nothing yields the could-not-find
output for Atlantis. -/
theorem update_dashboard_not_found_witness :
    update_dashboard emptyGeocoder noZone constZone identityAlt zeroAz clockDayTen
        1 (some ("Atlantis"))
      = ⟨"Could not find location: " ++ ("Atlantis"), [], [], none, []⟩ :=
  update_dashboard_not_found emptyGeocoder noZone constZone identityAlt zeroAz
    clockDayTen 1 ("Atlantis") (by decide) (by decide)

/-- Claim C8: for a resolved location the seasonal output has exactly four
rows in the order Spring, Summer, Fall, Winter; each row evaluates the noon
position at 12:00 local wall clock of the fixed season date converted to
UTC, and invokes the sunrise/sunset finder on the local midnight of that
same date. -/
theorem update_dashboard_seasonal_snapshots (geocode : String → GeoResult)
    (timezone_at : ℚ → ℚ → Option String) (pytz_timezone : String → Timezone)
    (get_altitude get_azimuth : ℚ → ℚ → ℤ → ℚ)
    (now_local : Timezone → ℤ) (n_clicks : ℕ) (s : String) (lat lon : ℚ)
    (address : String)
    (hs : ¬ s = "") (hc : get_coordinates geocode s = some (lat, lon, address)) :
    (update_dashboard geocode timezone_at pytz_timezone get_altitude get_azimuth
        now_local n_clicks (some s)).seasonal
      = [(("Spring"),
          get_altitude lat lon (toUTC (get_local_timezone timezone_at pytz_timezone lat lon)
            (minutesOfDate 2025 3 20 + 720)),
          find_sunrise_sunset get_altitude lat lon (minutesOfDate 2025 3 20)
            (get_local_timezone timezone_at pytz_timezone lat lon)),
         (("Summer"),
          get_altitude lat lon (toUTC (get_local_timezone timezone_at pytz_timezone lat lon)
            (minutesOfDate 2025 6 20 + 720)),
          find_sunrise_sunset get_altitude lat lon (minutesOfDate 2025 6 20)
            (get_local_timezone timezone_at pytz_timezone lat lon)),
         (("Fall"),
          get_altitude lat lon (toUTC (get_local_timezone timezone_at pytz_timezone lat lon)
            (minutesOfDate 2025 9 22 + 720)),
          find_sunrise_sunset get_altitude lat lon (minutesOfDate 2025 9 22)
            (get_local_timezone timezone_at pytz_timezone lat lon)),
         (("Winter"),
          get_altitude lat lon (toUTC (get_local_timezone timezone_at pytz_timezone lat lon)
            (minutesOfDate 2025 12 21 + 720)),
          find_sunrise_sunset get_altitude lat lon (minutesOfDate 2025 12 21)
            (get_local_timezone timezone_at pytz_timezone lat lon))] := by
  simp [update_dashboard, hs, hc, seasons, add_sub_cancel_right]

/-- Witness for C8: the seasonal rows of a concretely resolved origin
location, in the stated order and shape. -/
theorem update_dashboard_seasonal_snapshots_witness :
    (update_dashboard originGeocoder noZone constZone identityAlt zeroAz clockDayTen
        1 (some ("Yakima"))).seasonal
      = [(("Spring"),
          identityAlt 0 0 (toUTC (get_local_timezone noZone constZone 0 0)
            (minutesOfDate 2025 3 20 + 720)),
          find_sunrise_sunset identityAlt 0 0 (minutesOfDate 2025 3 20)
            (get_local_timezone noZone constZone 0 0)),
         (("Summer"),
          identityAlt 0 0 (toUTC (get_local_timezone noZone constZone 0 0)
            (minutesOfDate 2025 6 20 + 720)),
          find_sunrise_sunset identityAlt 0 0 (minutesOfDate 2025 6 20)
            (get_local_timezone noZone constZone 0 0)),
         (("Fall"),
          identityAlt 0 0 (toUTC (get_local_timezone noZone constZone 0 0)
            (minutesOfDate 2025 9 22 + 720)),
          find_sunrise_sunset identityAlt 0 0 (minutesOfDate 2025 9 22)
            (get_local_timezone noZone constZone 0 0)),
         (("Winter"),
          identityAlt 0 0 (toUTC (get_local_timezone noZone constZone 0 0)
            (minutesOfDate 2025 12 21 + 720)),
          find_sunrise_sunset identityAlt 0 0 (minutesOfDate 2025 12 21)
            (get_local_timezone noZone constZone 0 0))] :=
  update_dashboard_seasonal_snapshots originGeocoder noZone constZone identityAlt
    zeroAz clockDayTen 1 ("Yakima") 0 0 ("Origin") (by decide) (by decide)

/-- Claim C9, amended: the sun-info panel holds the resolved address and
coordinates together with the solar position evaluated at 12:00 local wall
clock of the current local date, converted to UTC; it is a solar-noon
reference position, not the position at the present instant. -/
theorem update_dashboard_sun_info (geocode : String → GeoResult)
    (timezone_at : ℚ → ℚ → Option String) (pytz_timezone : String → Timezone)
    (get_altitude get_azimuth : ℚ → ℚ → ℤ → ℚ)
    (now_local : Timezone → ℤ) (n_clicks : ℕ) (s : String) (lat lon : ℚ)
    (address : String)
    (hs : ¬ s = "") (hc : get_coordinates geocode s = some (lat, lon, address)) :
    (update_dashboard geocode timezone_at pytz_timezone get_altitude get_azimuth
        now_local n_clicks (some s)).sunInfo
      = some (SunInfo.mk address lat lon
          (get_altitude lat lon (toUTC (get_local_timezone timezone_at pytz_timezone lat lon)
            (((now_local (get_local_timezone timezone_at pytz_timezone lat lon)).fdiv 1440) * 1440
              + 720)))
          (get_azimuth lat lon (toUTC (get_local_timezone timezone_at pytz_timezone lat lon)
            (((now_local (get_local_timezone timezone_at pytz_timezone lat lon)).fdiv 1440) * 1440
              + 720)))) := by
  simp [update_dashboard, hs, hc]

/-- Counterexample for C9 as stated: with the clock reading local minute
100 of day zero, the panel shows the altitude of instant 720, the local
noon, while the altitude at the present instant is 100, so the panel does
not hold the position of the present instant. -/
theorem update_dashboard_sun_info_counterexample :
    (update_dashboard originGeocoder noZone constZone identityAlt zeroAz clockEarly
        1 (some ("Yakima"))).sunInfo
      = some (SunInfo.mk ("Origin") 0 0 720 0)
    ∧ identityAlt 0 0 (toUTC utcTz (clockEarly utcTz)) = 100
    ∧ ¬ ((720 : ℚ) = (100 : ℚ)) := by
  refine ⟨by decide, ?_, by norm_num⟩
  norm_num [identityAlt, toUTC, utcTz, clockEarly]

/-- Witness for C9 amended: the panel of a concretely resolved origin
location holds the noon-reference position of the current local date. -/
theorem update_dashboard_sun_info_witness :
    (update_dashboard originGeocoder noZone constZone identityAlt zeroAz clockEarly
        1 (some ("Yakima"))).sunInfo
      = some (SunInfo.mk ("Origin") 0 0
          (identityAlt 0 0 (toUTC (get_local_timezone noZone constZone 0 0)
            (((clockEarly (get_local_timezone noZone constZone 0 0)).fdiv 1440) * 1440 + 720)))
          (zeroAz 0 0 (toUTC (get_local_timezone noZone constZone 0 0)
            (((clockEarly (get_local_timezone noZone constZone 0 0)).fdiv 1440) * 1440 + 720)))) :=
  update_dashboard_sun_info originGeocoder noZone constZone identityAlt zeroAz
    clockEarly 1 ("Yakima") 0 0 ("Origin") (by decide) (by decide)

theorem mem_localSolarSamples_noon (tz : Timezone) (now_local : Timezone → ℤ)
    (p : String × ℤ) (hp : p ∈ seasons) :
    p.2 ∈ localSolarSamples tz now_local := by
  simp only [localSolarSamples, List.mem_append, List.mem_map]
  exact Or.inl (Or.inl (Or.inl ⟨p, hp, rfl⟩))

theorem mem_localSolarSamples_scan (tz : Timezone) (now_local : Timezone → ℤ)
    (p : String × ℤ) (m : ℕ) (hp : p ∈ seasons) (hm : m < 1440) :
    (p.2 - 720) + (m : ℤ) ∈ localSolarSamples tz now_local := by
  simp only [localSolarSamples, List.mem_append, List.mem_flatMap, List.mem_map,
    List.mem_range]
  exact Or.inl (Or.inl (Or.inr ⟨p, hp, m, hm, rfl⟩))

theorem mem_localSolarSamples_yesterday (tz : Timezone) (now_local : Timezone → ℤ)
    (i : ℕ) (hi : i < 96) :
    ((now_local tz).fdiv 1440 - 1) * 1440 + 15 * (i : ℤ) ∈ localSolarSamples tz now_local := by
  simp only [localSolarSamples, List.mem_append, List.mem_map, List.mem_range]
  exact Or.inl (Or.inr ⟨i, hi, rfl⟩)

theorem mem_localSolarSamples_noonToday (tz : Timezone) (now_local : Timezone → ℤ) :
    ((now_local tz).fdiv 1440) * 1440 + 720 ∈ localSolarSamples tz now_local := by
  simp only [localSolarSamples, List.mem_append, List.mem_singleton]
  simp

/-- Claim C3: every code path of the callback that evaluates solar altitude
or azimuth converts the local wall-clock sample to UTC before the call:
two pairs of position calculators that agree on the UTC conversions of the
local sample instants of the resolved location produce identical dashboard
outputs, so the calculator is never consulted at a non-UTC-converted
instant. -/
theorem update_dashboard_utc_only (geocode : String → GeoResult)
    (timezone_at : ℚ → ℚ → Option String) (pytz_timezone : String → Timezone)
    (g₁ g₂ a₁ a₂ : ℚ → ℚ → ℤ → ℚ)
    (now_local : Timezone → ℤ) (n_clicks : ℕ) (location_text : Option String)
    (h : ∀ s lat lon address, location_text = some s →
      get_coordinates geocode s = some (lat, lon, address) →
      ∀ l ∈ localSolarSamples (get_local_timezone timezone_at pytz_timezone lat lon) now_local,
        g₁ lat lon (toUTC (get_local_timezone timezone_at pytz_timezone lat lon) l)
          = g₂ lat lon (toUTC (get_local_timezone timezone_at pytz_timezone lat lon) l)
        ∧ a₁ lat lon (toUTC (get_local_timezone timezone_at pytz_timezone lat lon) l)
          = a₂ lat lon (toUTC (get_local_timezone timezone_at pytz_timezone lat lon) l)) :
    update_dashboard geocode timezone_at pytz_timezone g₁ a₁ now_local n_clicks location_text
      = update_dashboard geocode timezone_at pytz_timezone g₂ a₂ now_local n_clicks location_text := by
  rcases location_text with _ | s
  · rfl
  · by_cases hs : s = ""
    · subst hs
      rfl
    · rcases hc : get_coordinates geocode s with _ | ⟨lat, lon, address⟩
      · simp [update_dashboard, hs, hc]
      · have hloc := fun l hl => h s lat lon address rfl hc l hl
        simp only [update_dashboard, Option.getD_some, hc]
        have hcond : ¬ ((some s : Option String) = none ∨ (some s : Option String) = some ("")) := by
          simp [hs]
        rw [if_neg hcond, if_neg hcond]
        simp only [DashOutput.mk.injEq, true_and, and_true]
        refine ⟨?_, ?_, ?_⟩
        · apply List.map_congr_left
          intro p hp
          have h1 := (hloc p.2 (mem_localSolarSamples_noon _ now_local p hp)).1
          have h2 := find_sunrise_sunset_congr g₁ g₂ lat lon (p.2 - 720)
            (get_local_timezone timezone_at pytz_timezone lat lon)
            (fun m hm => (hloc ((p.2 - 720) + (m : ℤ))
              (mem_localSolarSamples_scan _ now_local p m hp hm)).1)
          rw [h1, h2]
        · apply List.map_congr_left
          intro t ht
          rcases List.mem_map.mp ht with ⟨i, hi, rfl⟩
          have h1 := (hloc _ (mem_localSolarSamples_yesterday _ now_local i
            (List.mem_range.mp hi))).1
          rw [h1]
        · have h1 := hloc _ (mem_localSolarSamples_noonToday
            (get_local_timezone timezone_at pytz_timezone lat lon) now_local)
          rw [h1.1, h1.2]

theorem localSolarSamples_nonneg (tz : Timezone) (now_local : Timezone → ℤ)
    (h4 : ∀ p ∈ seasons, (0 : ℤ) ≤ p.2 - 720)
    (hy : (0 : ℤ) ≤ (now_local tz).fdiv 1440 - 1) :
    ∀ l ∈ localSolarSamples tz now_local, (0 : ℤ) ≤ l := by
  intro l hl
  simp only [localSolarSamples, List.mem_append, List.mem_map, List.mem_flatMap,
    List.mem_range, List.mem_singleton] at hl
  rcases hl with ((h | h) | h) | h
  · rcases h with ⟨p, hp, rfl⟩
    have := h4 p hp
    omega
  · rcases h with ⟨p, hp, m, hm, rfl⟩
    have := h4 p hp
    omega
  · rcases h with ⟨i, hi, rfl⟩
    omega
  · omega

/-- Witness for C3: the identity altitude routine and the routine that
differs from it only at negative instants agree on every UTC-converted
sample of the resolved location, so the two dashboards coincide. -/
theorem update_dashboard_utc_only_witness :
    update_dashboard fixedGeocoder noZone constZone identityAlt zeroAz clockDayTen
        1 (some ("Yakima"))
      = update_dashboard fixedGeocoder noZone constZone clippedAlt zeroAz clockDayTen
        1 (some ("Yakima")) := by
  apply update_dashboard_utc_only
  intro s lat lon address hs hc l hl
  obtain rfl := (Option.some.inj hs)
  have h0 : get_coordinates fixedGeocoder ("Yakima")
      = some (1, 2, ("Resolved Address")) := by decide
  rw [h0] at hc
  injection hc with h1
  injection h1 with e1 h2
  injection h2 with e2 e3
  subst e1
  subst e2
  subst e3
  have hall := localSolarSamples_nonneg (get_local_timezone noZone constZone 1 2)
    clockDayTen (by decide) (by decide)
  have hl0 := hall l hl
  have htu : toUTC (get_local_timezone noZone constZone 1 2) l = l := by
    simp [toUTC, get_local_timezone, noZone, utcTz]
  constructor
  · rw [htu]
    simp only [identityAlt, clippedAlt]
    rw [if_neg (not_lt.mpr hl0)]
  · rfl

end Solar
